import Mathlib

/-!
# Verification of the Bhargava (2004) muscle metabolic power probe

Shallow embedding of `MuscleMetabolicPowerProbeBhargava2004.h` (OpenSim).
Floating-point doubles are modelled as real numbers `ℝ`; the `SimTK::NaN`
sentinel used for "unset" values is modelled as `none : Option ℝ`.

The header under verification contains the class declarations, the inline
constructors of `MetabolicMuscleParameter`, its `setNull` /
`constructProperties` / `getMuscleMass` / `setMuscleMass` bodies, and the
doxygen documentation of all heat-rate and work-rate formulas.  The bodies of
`computeProbeInputs` and `connectToModel` (the `.cpp`) are not part of the
source tree; the formulas they implement are modelled from the spec where
noted.
-/

namespace Bhargava2004

noncomputable section

/-- Per-muscle dynamic quantities fetched from the dynamics engine at one
evaluation instant: excitation `u`, normalized fiber length, fiber velocity
`vCE` (positive = lengthening / eccentric), active fiber force `fCE`,
isometric active force `fCEiso`, passive force `fPassive`. -/
structure MuscleDynamicState where
  u : ℝ
  normalizedFiberLength : ℝ
  vCE : ℝ
  fCE : ℝ
  fCEiso : ℝ
  fPassive : ℝ

/-- `MetabolicMuscleParameter`: the serializable per-muscle properties of the
probe, plus the cached muscle mass `_muscMass` (here `muscMass`).  The
`SimTK::NaN` sentinel of the C++ source is modelled as `none`. -/
structure MetabolicMuscleParameter where
  specific_tension : ℝ
  density : ℝ
  ratio_slow_twitch_fibers : ℝ
  use_provided_muscle_mass : Bool
  provided_muscle_mass : Option ℝ
  activation_constant_slow_twitch : ℝ
  activation_constant_fast_twitch : ℝ
  maintenance_constant_slow_twitch : ℝ
  maintenance_constant_fast_twitch : ℝ
  muscMass : Option ℝ

/-- The record produced by `setNull(); constructProperties();`, the common
first two statements of every `MetabolicMuscleParameter` constructor:
`setNull` sets `_muscMass = SimTK::NaN`, and `constructProperties` installs
the documented property defaults (0.25e6 Pa, 1059.7 kg per cubic metre,
ratio 0.5, mass flag off, mass sentinel NaN, activation constants 40/133,
maintenance constants 74/111). -/
def constructedDefaults : MetabolicMuscleParameter where
  specific_tension := 0.25e6
  density := 1059.7
  ratio_slow_twitch_fibers := 0.5
  use_provided_muscle_mass := false
  provided_muscle_mass := none
  activation_constant_slow_twitch := 40.0
  activation_constant_fast_twitch := 133.0
  maintenance_constant_slow_twitch := 74.0
  maintenance_constant_fast_twitch := 111.0
  muscMass := none

/-- The default constructor `MetabolicMuscleParameter()`. -/
def MetabolicMuscleParameter.mkDefault : MetabolicMuscleParameter :=
  constructedDefaults

/-- The one-argument constructor
`MetabolicMuscleParameter(ratio_slow_twitch_fibers)`. -/
def MetabolicMuscleParameter.mkRatio (ratio : ℝ) : MetabolicMuscleParameter :=
  { constructedDefaults with ratio_slow_twitch_fibers := ratio }

/-- The two-argument constructor
`MetabolicMuscleParameter(ratio_slow_twitch_fibers, muscle_mass)`:
additionally sets `use_provided_muscle_mass = true` and
`provided_muscle_mass` to the given mass. -/
def MetabolicMuscleParameter.mkRatioMass (ratio muscle_mass : ℝ) :
    MetabolicMuscleParameter :=
  { constructedDefaults with
      ratio_slow_twitch_fibers := ratio
      use_provided_muscle_mass := true
      provided_muscle_mass := some muscle_mass }

/-- The five-argument constructor setting the ratio and the four activation
and maintenance constants. -/
def MetabolicMuscleParameter.mkConstants
    (ratio actSlow actFast maintSlow maintFast : ℝ) :
    MetabolicMuscleParameter :=
  { constructedDefaults with
      ratio_slow_twitch_fibers := ratio
      activation_constant_slow_twitch := actSlow
      activation_constant_fast_twitch := actFast
      maintenance_constant_slow_twitch := maintSlow
      maintenance_constant_fast_twitch := maintFast }

/-- `getMuscleMass`: returns the cached `_muscMass` (NaN sentinel = `none`). -/
def MetabolicMuscleParameter.getMuscleMass (p : MetabolicMuscleParameter) :
    Option ℝ :=
  p.muscMass

/-- `setMuscleMass(mass)`: overwrites the cached `_muscMass`. -/
def MetabolicMuscleParameter.setMuscleMass (p : MetabolicMuscleParameter)
    (mass : ℝ) : MetabolicMuscleParameter :=
  { p with muscMass := some mass }

/-- Configuration-time failures of the probe (§7 of the spec). -/
inductive ConfigurationError where
  | missingProvidedMass : ConfigurationError
  deriving DecidableEq

/-- Modelled from the spec: `resolveMass` (performed by the probe's
`connectToModel`, whose body is not in the source tree).  If
`use_provided_muscle_mass` is set, returns `provided_muscle_mass`, failing
with a `ConfigurationError` when that property is still the NaN sentinel;
otherwise returns `(Fmax / specific_tension) * density * Lm_opt` as in the
header's documented mass formula. -/
def resolveMass (p : MetabolicMuscleParameter)
    (muscleMaxForce muscleOptimalFiberLength : ℝ) :
    Except ConfigurationError ℝ :=
  if p.use_provided_muscle_mass then
    match p.provided_muscle_mass with
    | none => .error .missingProvidedMass
    | some m => .ok m
  else
    .ok ((muscleMaxForce / p.specific_tension) * p.density *
      muscleOptimalFiberLength)

/-- The four per-muscle heat and work rates. -/
structure HeatRates where
  Adot : ℝ
  Mdot : ℝ
  Sdot : ℝ
  Wdot : ℝ

/-- Modelled from the spec: the pure per-muscle energetics computation
(`computeTerms`, implemented inside `computeProbeInputs`, whose body is not
in the source tree; the formulas are those documented in the header).
`m` is the cached muscle mass, `curve` the normalized-fiber-length
interpolation function, `useForceDependentAlpha` the
`use_force_dependent_shortening_prop_constant` flag. -/
def computeTerms (p : MetabolicMuscleParameter) (m : ℝ)
    (s : MuscleDynamicState) (curve : ℝ → ℝ)
    (useForceDependentAlpha : Bool) : HeatRates :=
  let r := p.ratio_slow_twitch_fibers
  let sinFac := Real.sin (Real.pi / 2 * s.u)
  let cosFac := 1 - Real.cos (Real.pi / 2 * s.u)
  let fL := curve s.normalizedFiberLength
  let alpha :=
    if useForceDependentAlpha then
      if s.vCE ≥ 0 then 0.16 * s.fCEiso + 0.18 * s.fCE else 0.157 * s.fCE
    else
      if s.vCE ≥ 0 then 0.25 * (s.fCE + s.fPassive) else 0
  { Adot := m * (p.activation_constant_slow_twitch * r * sinFac +
        p.activation_constant_fast_twitch * (1 - r) * cosFac)
    Mdot := m * fL * (p.maintenance_constant_slow_twitch * r * sinFac +
        p.maintenance_constant_fast_twitch * (1 - r) * cosFac)
    Sdot := -alpha * s.vCE
    Wdot := if s.vCE ≥ 0 then -s.fCE * s.vCE else 0 }

/-- The shortening proportionality constant alone (the same branch structure
as inside `computeTerms`), convenient for stating sign properties. -/
def alphaShortening (useForceDependentAlpha : Bool)
    (fCE fCEiso fPassive vCE : ℝ) : ℝ :=
  if useForceDependentAlpha then
    if vCE ≥ 0 then 0.16 * fCEiso + 0.18 * fCE else 0.157 * fCE
  else
    if vCE ≥ 0 then 0.25 * (fCE + fPassive) else 0

/-- Probe-level configuration: the six enable flags, the basal coefficient
and exponent, the force-dependent-alpha flag, and the interpolation curve. -/
structure ProbeConfig where
  activation_rate_on : Bool
  maintenance_rate_on : Bool
  shortening_rate_on : Bool
  basal_rate_on : Bool
  mechanical_work_rate_on : Bool
  enforce_minimum_heat_rate_per_muscle : Bool
  use_force_dependent_shortening_prop_constant : Bool
  basal_coefficient : ℝ
  basal_exponent : ℝ
  curve : ℝ → ℝ

/-- Modelled from the spec: the enabled-term heat sum
`Adot + Mdot + Sdot` with each term zeroed when its flag is off
(step 3 of the probe's evaluation loop). -/
def heatRateSum (cfg : ProbeConfig) (t : HeatRates) : ℝ :=
  (if cfg.activation_rate_on then t.Adot else 0) +
  (if cfg.maintenance_rate_on then t.Mdot else 0) +
  (if cfg.shortening_rate_on then t.Sdot else 0)

/-- Modelled from the spec: the per-muscle minimum-heat-rate clamp.  When
`enforce_minimum_heat_rate_per_muscle` is on and the activation, maintenance
and shortening flags are all on, the heat sum is floored at `1.0 * mass`
(1.0 W/kg scaled by the muscle's mass); otherwise it is left unchanged. -/
def clampHeat (cfg : ProbeConfig) (mass h : ℝ) : ℝ :=
  if cfg.enforce_minimum_heat_rate_per_muscle ∧ cfg.activation_rate_on ∧
      cfg.maintenance_rate_on ∧ cfg.shortening_rate_on then
    max h (1.0 * mass)
  else h

/-- Modelled from the spec: one muscle's contribution to the probe total:
the clamped heat sum plus the (possibly disabled) mechanical work rate. -/
def muscleEnergyRate (cfg : ProbeConfig) (p : MetabolicMuscleParameter)
    (mass : ℝ) (s : MuscleDynamicState) : ℝ :=
  let t := computeTerms p mass s cfg.curve
    cfg.use_force_dependent_shortening_prop_constant
  clampHeat cfg mass (heatRateSum cfg t) +
    (if cfg.mechanical_work_rate_on then t.Wdot else 0)

/-- Modelled from the spec: the whole-body basal heat rate
`Bdot = basal_coefficient * bodyMass ^ basal_exponent` when
`basal_rate_on`, else 0.  `bodyMass` is the total model mass supplied by the
external state. -/
def basalRate (cfg : ProbeConfig) (bodyMass : ℝ) : ℝ :=
  if cfg.basal_rate_on then
    cfg.basal_coefficient * bodyMass ^ cfg.basal_exponent
  else 0

/-- Modelled from the spec: `computeProbeInputs` / `evaluate`: the grand
total is the basal term (added once) plus the sum of per-muscle
contributions, each muscle given as its parameters, cached mass, and dynamic
state. -/
def evaluate (cfg : ProbeConfig)
    (muscles : List (MetabolicMuscleParameter × ℝ × MuscleDynamicState))
    (bodyMass : ℝ) : ℝ :=
  basalRate cfg bodyMass +
    (muscles.map (fun x => muscleEnergyRate cfg x.1 x.2.1 x.2.2)).sum

/-- A concrete probe configuration with every enable flag on (force-dependent
alpha off), used for concrete evaluations. -/
def allOnConfig : ProbeConfig :=
  ⟨true, true, true, true, true, true, false, 1.2, 1, fun _ => 1⟩

/-- A concrete probe configuration with only the basal rate enabled,
coefficient 1.2 and exponent 1.0. -/
def basalOnlyConfig : ProbeConfig :=
  ⟨false, false, false, true, false, false, false, 1.2, 1, fun _ => 1⟩

/-- The nonnegativity of the shortening proportionality constant, given
nonnegative forces, in every branch. -/
theorem alphaShortening_nonneg (b : Bool) (fCE fCEiso fPassive vCE : ℝ)
    (hCE : 0 ≤ fCE) (hIso : 0 ≤ fCEiso) (hP : 0 ≤ fPassive) :
    0 ≤ alphaShortening b fCE fCEiso fPassive vCE := by
  unfold alphaShortening
  split <;> split <;> nlinarith

/-- Claim C1: the shortening heat rate is `Sdot = -alpha * vCE`, where
`alpha` branches on the sign of the fiber velocity: with
`useForceDependentAlpha` it is `0.16*F_CE_iso + 0.18*F_CE` for `vCE ≥ 0`
and `0.157*F_CE` for `vCE < 0`; without it, `0.25*(F_CE + F_PASSIVE)` for
`vCE ≥ 0` and `0` for `vCE < 0`. -/
theorem shortening_heat_rate_formula (p : MetabolicMuscleParameter) (m : ℝ)
    (s : MuscleDynamicState) (curve : ℝ → ℝ) (b : Bool) :
    (computeTerms p m s curve b).Sdot =
      -(alphaShortening b s.fCE s.fCEiso s.fPassive s.vCE) * s.vCE ∧
    (b = true → s.vCE ≥ 0 →
      alphaShortening b s.fCE s.fCEiso s.fPassive s.vCE =
        0.16 * s.fCEiso + 0.18 * s.fCE) ∧
    (b = true → s.vCE < 0 →
      alphaShortening b s.fCE s.fCEiso s.fPassive s.vCE = 0.157 * s.fCE) ∧
    (b = false → s.vCE ≥ 0 →
      alphaShortening b s.fCE s.fCEiso s.fPassive s.vCE =
        0.25 * (s.fCE + s.fPassive)) ∧
    (b = false → s.vCE < 0 →
      alphaShortening b s.fCE s.fCEiso s.fPassive s.vCE = 0) := by
  refine ⟨rfl, ?_, ?_, ?_, ?_⟩
  · intro hb hv; subst hb; simp [alphaShortening, hv]
  · intro hb hv; subst hb; simp [alphaShortening, not_le.mpr hv]
  · intro hb hv; subst hb; simp [alphaShortening, hv]
  · intro hb hv; subst hb; simp [alphaShortening, not_le.mpr hv]

/-- Claim C1 witness: concrete instantiations of the shortening-rate branch
structure. -/
theorem shortening_heat_rate_formula_witness :
    (computeTerms .mkDefault 1 ⟨1, 1, 2, 3, 4, 5⟩ (fun _ => 1) true).Sdot =
      -(alphaShortening true 3 4 5 2) * 2 ∧
    alphaShortening true 3 4 5 2 = 0.16 * 4 + 0.18 * 3 ∧
    alphaShortening true 3 4 5 (-2) = 0.157 * 3 ∧
    alphaShortening false 3 4 5 2 = 0.25 * (3 + 5) ∧
    alphaShortening false 3 4 5 (-2) = 0 :=
  ⟨(shortening_heat_rate_formula .mkDefault 1 ⟨1, 1, 2, 3, 4, 5⟩
      (fun _ => 1) true).1,
   (shortening_heat_rate_formula .mkDefault 1 ⟨1, 1, 2, 3, 4, 5⟩
      (fun _ => 1) true).2.1 rfl (by norm_num),
   (shortening_heat_rate_formula .mkDefault 1 ⟨1, 1, -2, 3, 4, 5⟩
      (fun _ => 1) true).2.2.1 rfl (by norm_num),
   (shortening_heat_rate_formula .mkDefault 1 ⟨1, 1, 2, 3, 4, 5⟩
      (fun _ => 1) false).2.2.2.1 rfl (by norm_num),
   (shortening_heat_rate_formula .mkDefault 1 ⟨1, 1, -2, 3, 4, 5⟩
      (fun _ => 1) false).2.2.2.2 rfl (by norm_num)⟩

/-- Claim C2: with nonnegative forces, the shortening heat rate is
nonnegative for concentric motion (`vCE < 0`) in both alpha branches, and
nonpositive for eccentric motion (`vCE > 0`) whenever `alpha > 0`. -/
theorem shortening_heat_rate_sign (p : MetabolicMuscleParameter) (m : ℝ)
    (s : MuscleDynamicState) (curve : ℝ → ℝ) (b : Bool)
    (hCE : 0 ≤ s.fCE) (hIso : 0 ≤ s.fCEiso) (hP : 0 ≤ s.fPassive) :
    (s.vCE < 0 → 0 ≤ (computeTerms p m s curve b).Sdot) ∧
    (0 < s.vCE → 0 < alphaShortening b s.fCE s.fCEiso s.fPassive s.vCE →
      (computeTerms p m s curve b).Sdot ≤ 0) := by
  have hSdot : (computeTerms p m s curve b).Sdot =
      -(alphaShortening b s.fCE s.fCEiso s.fPassive s.vCE) * s.vCE := rfl
  have halpha : 0 ≤ alphaShortening b s.fCE s.fCEiso s.fPassive s.vCE :=
    alphaShortening_nonneg b s.fCE s.fCEiso s.fPassive s.vCE hCE hIso hP
  constructor
  · intro hv
    rw [hSdot]
    nlinarith
  · intro hv hpos
    rw [hSdot]
    nlinarith

/-- Claim C2 witness: concrete signs of the shortening heat rate for a
concentric and an eccentric fiber velocity. -/
theorem shortening_heat_rate_sign_witness :
    (0 ≤ (computeTerms .mkDefault 1 ⟨1, 1, -1, 1, 1, 1⟩ (fun _ => 1)
        true).Sdot) ∧
    ((computeTerms .mkDefault 1 ⟨1, 1, 1, 1, 1, 1⟩ (fun _ => 1)
        true).Sdot ≤ 0) :=
  ⟨(shortening_heat_rate_sign .mkDefault 1 ⟨1, 1, -1, 1, 1, 1⟩ (fun _ => 1)
      true (by norm_num) (by norm_num) (by norm_num)).1 (by norm_num),
   (shortening_heat_rate_sign .mkDefault 1 ⟨1, 1, 1, 1, 1, 1⟩ (fun _ => 1)
      true (by norm_num) (by norm_num) (by norm_num)).2 (by norm_num)
      (by norm_num [alphaShortening])⟩

/-- Claim C3: when `enforce_minimum_heat_rate_per_muscle` and the
activation, maintenance and shortening flags are all on, the per-muscle
heat sum used in the total is `max(raw, 1.0 * mass)`, applied before `Wdot`
is added: after clamping the sum is at least `1.0 * mass`, and it equals
the raw sum whenever the raw sum already meets the floor. -/
theorem minimum_heat_rate_clamp (cfg : ProbeConfig)
    (p : MetabolicMuscleParameter) (mass h : ℝ) (s : MuscleDynamicState)
    (hE : cfg.enforce_minimum_heat_rate_per_muscle = true)
    (hA : cfg.activation_rate_on = true)
    (hM : cfg.maintenance_rate_on = true)
    (hS : cfg.shortening_rate_on = true) :
    clampHeat cfg mass h = max h (1.0 * mass) ∧
    1.0 * mass ≤ clampHeat cfg mass h ∧
    (1.0 * mass ≤ h → clampHeat cfg mass h = h) ∧
    muscleEnergyRate cfg p mass s =
      clampHeat cfg mass (heatRateSum cfg (computeTerms p mass s cfg.curve
        cfg.use_force_dependent_shortening_prop_constant)) +
      (if cfg.mechanical_work_rate_on then
        (computeTerms p mass s cfg.curve
          cfg.use_force_dependent_shortening_prop_constant).Wdot
       else 0) := by
  have hclamp : clampHeat cfg mass h = max h (1.0 * mass) := by
    simp [clampHeat, hE, hA, hM, hS]
  refine ⟨hclamp, ?_, ?_, rfl⟩
  · rw [hclamp]; exact le_max_right _ _
  · intro hfloor; rw [hclamp]; exact max_eq_left hfloor

/-- Claim C3 witness: the clamp at a concrete configuration, muscle and
raw heat sum below the floor. -/
theorem minimum_heat_rate_clamp_witness :
    clampHeat allOnConfig 2 0 = max 0 (1.0 * 2) ∧
    1.0 * 2 ≤ clampHeat allOnConfig 2 0 :=
  ⟨(minimum_heat_rate_clamp allOnConfig .mkDefault 2 0 ⟨1, 1, 0, 0, 0, 0⟩
      rfl rfl rfl rfl).1,
   (minimum_heat_rate_clamp allOnConfig .mkDefault 2 0 ⟨1, 1, 0, 0, 0, 0⟩
      rfl rfl rfl rfl).2.1⟩

/-- Claim C4: the activation heat rate is
`Adot = m * [Adot_slow * r * sin(pi/2 * u) + Adot_fast * (1-r) *
(1 - cos(pi/2 * u))]` and the maintenance heat rate is
`Mdot = m * fL * [Mdot_slow * r * sin(pi/2 * u) + Mdot_fast * (1-r) *
(1 - cos(pi/2 * u))]` with `fL` the curve at the normalized fiber length;
for `u = 1`, `r = 0.5`, `m = 1` and the default constants,
`Adot = 0.5*40 + 0.5*133 = 86.5`. -/
theorem activation_maintenance_heat_rate (p : MetabolicMuscleParameter)
    (m : ℝ) (s : MuscleDynamicState) (curve : ℝ → ℝ) (b : Bool) :
    (computeTerms p m s curve b).Adot =
      m * (p.activation_constant_slow_twitch * p.ratio_slow_twitch_fibers *
        Real.sin (Real.pi / 2 * s.u) +
        p.activation_constant_fast_twitch * (1 - p.ratio_slow_twitch_fibers) *
        (1 - Real.cos (Real.pi / 2 * s.u))) ∧
    (computeTerms p m s curve b).Mdot =
      m * curve s.normalizedFiberLength *
        (p.maintenance_constant_slow_twitch * p.ratio_slow_twitch_fibers *
          Real.sin (Real.pi / 2 * s.u) +
         p.maintenance_constant_fast_twitch *
          (1 - p.ratio_slow_twitch_fibers) *
          (1 - Real.cos (Real.pi / 2 * s.u))) ∧
    (computeTerms .mkDefault 1 ⟨1, 1, 0, 0, 0, 0⟩ curve b).Adot = 86.5 := by
  refine ⟨rfl, rfl, ?_⟩
  show (1 : ℝ) * (40.0 * 0.5 * Real.sin (Real.pi / 2 * 1) +
      133.0 * (1 - 0.5) * (1 - Real.cos (Real.pi / 2 * 1))) = 86.5
  rw [mul_one (Real.pi / 2), Real.sin_pi_div_two, Real.cos_pi_div_two]
  norm_num

/-- Claim C5: the mechanical work rate is `Wdot = -F_CE * vCE` for
`vCE ≥ 0` and `Wdot = 0` for `vCE < 0`; with `F_CE ≥ 0` and `vCE ≥ 0` it
is nonpositive. -/
theorem mechanical_work_rate (p : MetabolicMuscleParameter) (m : ℝ)
    (s : MuscleDynamicState) (curve : ℝ → ℝ) (b : Bool) :
    (s.vCE ≥ 0 → (computeTerms p m s curve b).Wdot = -s.fCE * s.vCE) ∧
    (s.vCE < 0 → (computeTerms p m s curve b).Wdot = 0) ∧
    (0 ≤ s.fCE → 0 ≤ s.vCE → (computeTerms p m s curve b).Wdot ≤ 0) := by
  have hW : (computeTerms p m s curve b).Wdot =
      if s.vCE ≥ 0 then -s.fCE * s.vCE else 0 := rfl
  refine ⟨?_, ?_, ?_⟩
  · intro hv; rw [hW, if_pos hv]
  · intro hv; rw [hW, if_neg (not_le.mpr hv)]
  · intro hF hv
    rw [hW, if_pos hv]
    nlinarith

/-- Claim C5 witness: concrete mechanical work rates for an eccentric and a
concentric fiber velocity. -/
theorem mechanical_work_rate_witness :
    (computeTerms .mkDefault 1 ⟨1, 1, 2, 3, 0, 0⟩ (fun _ => 1)
      false).Wdot = -3 * 2 ∧
    (computeTerms .mkDefault 1 ⟨1, 1, -2, 3, 0, 0⟩ (fun _ => 1)
      false).Wdot = 0 ∧
    (computeTerms .mkDefault 1 ⟨1, 1, 2, 3, 0, 0⟩ (fun _ => 1)
      false).Wdot ≤ 0 :=
  ⟨(mechanical_work_rate .mkDefault 1 ⟨1, 1, 2, 3, 0, 0⟩ (fun _ => 1)
      false).1 (by norm_num),
   (mechanical_work_rate .mkDefault 1 ⟨1, 1, -2, 3, 0, 0⟩ (fun _ => 1)
      false).2.1 (by norm_num),
   (mechanical_work_rate .mkDefault 1 ⟨1, 1, 2, 3, 0, 0⟩ (fun _ => 1)
      false).2.2 (by norm_num) (by norm_num)⟩

/-- Claim C6: `resolveMass` returns the provided mass when
`use_provided_muscle_mass` is set, fails with a `ConfigurationError` when
the provided mass is still the NaN sentinel, and otherwise returns
`(muscleMaxForce / specific_tension) * density * optimalFiberLength`. -/
theorem resolveMass_spec (p : MetabolicMuscleParameter)
    (muscleMaxForce muscleOptimalFiberLength : ℝ) :
    (p.use_provided_muscle_mass = true → ∀ mProv : ℝ,
      p.provided_muscle_mass = some mProv →
      resolveMass p muscleMaxForce muscleOptimalFiberLength = .ok mProv) ∧
    (p.use_provided_muscle_mass = true → p.provided_muscle_mass = none →
      resolveMass p muscleMaxForce muscleOptimalFiberLength =
        .error .missingProvidedMass) ∧
    (p.use_provided_muscle_mass = false →
      resolveMass p muscleMaxForce muscleOptimalFiberLength =
        .ok ((muscleMaxForce / p.specific_tension) * p.density *
          muscleOptimalFiberLength)) := by
  refine ⟨?_, ?_, ?_⟩
  · intro hused mProv hsome; simp [resolveMass, hused, hsome]
  · intro hused hnone; simp [resolveMass, hused, hnone]
  · intro hused; simp [resolveMass, hused]

/-- Claim C6 witness: `resolveMass` on a parameter built by the
(ratio, mass) constructor and on a default-constructed parameter. -/
theorem resolveMass_spec_witness :
    resolveMass (.mkRatioMass 0.5 3) 10 0.1 = .ok 3 ∧
    resolveMass .mkDefault 10 0.1 =
      .ok ((10 / MetabolicMuscleParameter.mkDefault.specific_tension) *
        MetabolicMuscleParameter.mkDefault.density * 0.1) :=
  ⟨(resolveMass_spec (.mkRatioMass 0.5 3) 10 0.1).1 rfl 3 rfl,
   (resolveMass_spec .mkDefault 10 0.1).2.2 rfl⟩

/-- Claim C7: the basal term
`Bdot = basal_coefficient * bodyMass ^ basal_exponent` enters the grand
total exactly once, not once per muscle: prepending a muscle adds only that
muscle's contribution, the empty parameter set gives exactly the basal
term, and with only basal on, body mass 70, coefficient 1.2 and exponent
1.0 the total is 84. -/
theorem basal_rate_added_once (cfg : ProbeConfig)
    (x : MetabolicMuscleParameter × ℝ × MuscleDynamicState)
    (ms : List (MetabolicMuscleParameter × ℝ × MuscleDynamicState))
    (bodyMass : ℝ) :
    evaluate cfg (x :: ms) bodyMass =
      muscleEnergyRate cfg x.1 x.2.1 x.2.2 + evaluate cfg ms bodyMass ∧
    evaluate cfg [] bodyMass = basalRate cfg bodyMass ∧
    (cfg.basal_rate_on = true → basalRate cfg bodyMass =
      cfg.basal_coefficient * bodyMass ^ cfg.basal_exponent) ∧
    evaluate basalOnlyConfig [] 70 = 84 := by
  refine ⟨?_, ?_, ?_, ?_⟩
  · simp [evaluate]; ring
  · simp [evaluate]
  · intro hb; simp [basalRate, hb]
  · show basalRate basalOnlyConfig 70 + 0 = 84
    simp only [basalRate, basalOnlyConfig, if_true, add_zero]
    rw [Real.rpow_one]
    norm_num

/-- Claim C7 witness: the basal term at an enabled concrete
configuration. -/
theorem basal_rate_added_once_witness :
    basalRate basalOnlyConfig 70 =
      basalOnlyConfig.basal_coefficient *
        (70 : ℝ) ^ basalOnlyConfig.basal_exponent :=
  (basal_rate_added_once basalOnlyConfig (.mkDefault, 1, ⟨1, 1, 0, 0, 0, 0⟩)
    [] 70).2.2.1 rfl

/-- Claim C8: for excitation `u` in `[0,1]`, nonnegative mass, ratio in
`[0,1]`, nonnegative activation and maintenance constants, and a
nonnegative curve value, both `Adot` and `Mdot` are nonnegative. -/
theorem heat_rates_nonneg (p : MetabolicMuscleParameter) (m : ℝ)
    (s : MuscleDynamicState) (curve : ℝ → ℝ) (b : Bool)
    (hu0 : 0 ≤ s.u) (hu1 : s.u ≤ 1) (hm : 0 ≤ m)
    (hr0 : 0 ≤ p.ratio_slow_twitch_fibers)
    (hr1 : p.ratio_slow_twitch_fibers ≤ 1)
    (hAs : 0 ≤ p.activation_constant_slow_twitch)
    (hAf : 0 ≤ p.activation_constant_fast_twitch)
    (hMs : 0 ≤ p.maintenance_constant_slow_twitch)
    (hMf : 0 ≤ p.maintenance_constant_fast_twitch)
    (hfL : 0 ≤ curve s.normalizedFiberLength) :
    0 ≤ (computeTerms p m s curve b).Adot ∧
    0 ≤ (computeTerms p m s curve b).Mdot := by
  have hpi : (0 : ℝ) < Real.pi := Real.pi_pos
  have harg0 : 0 ≤ Real.pi / 2 * s.u := by positivity
  have harg1 : Real.pi / 2 * s.u ≤ Real.pi := by nlinarith
  have hsin : 0 ≤ Real.sin (Real.pi / 2 * s.u) :=
    Real.sin_nonneg_of_nonneg_of_le_pi harg0 harg1
  have hcos : 0 ≤ 1 - Real.cos (Real.pi / 2 * s.u) := by
    linarith [Real.cos_le_one (Real.pi / 2 * s.u)]
  have hA : 0 ≤ p.activation_constant_slow_twitch *
      p.ratio_slow_twitch_fibers * Real.sin (Real.pi / 2 * s.u) +
      p.activation_constant_fast_twitch * (1 - p.ratio_slow_twitch_fibers) *
      (1 - Real.cos (Real.pi / 2 * s.u)) := by
    have h1 := mul_nonneg (mul_nonneg hAs hr0) hsin
    have h2 := mul_nonneg (mul_nonneg hAf (by linarith : (0:ℝ) ≤
      1 - p.ratio_slow_twitch_fibers)) hcos
    linarith
  have hM : 0 ≤ p.maintenance_constant_slow_twitch *
      p.ratio_slow_twitch_fibers * Real.sin (Real.pi / 2 * s.u) +
      p.maintenance_constant_fast_twitch * (1 - p.ratio_slow_twitch_fibers) *
      (1 - Real.cos (Real.pi / 2 * s.u)) := by
    have h1 := mul_nonneg (mul_nonneg hMs hr0) hsin
    have h2 := mul_nonneg (mul_nonneg hMf (by linarith : (0:ℝ) ≤
      1 - p.ratio_slow_twitch_fibers)) hcos
    linarith
  exact ⟨mul_nonneg hm hA, mul_nonneg (mul_nonneg hm hfL) hM⟩

/-- Claim C8 witness: nonnegativity of `Adot` and `Mdot` at a concrete
default-parameter input with full excitation. -/
theorem heat_rates_nonneg_witness :
    0 ≤ (computeTerms .mkDefault 1 ⟨1, 1, 0, 0, 0, 0⟩ (fun _ => 1)
      false).Adot ∧
    0 ≤ (computeTerms .mkDefault 1 ⟨1, 1, 0, 0, 0, 0⟩ (fun _ => 1)
      false).Mdot :=
  heat_rates_nonneg .mkDefault 1 ⟨1, 1, 0, 0, 0, 0⟩ (fun _ => 1) false
    (by norm_num) (by norm_num) (by norm_num)
    (by norm_num [MetabolicMuscleParameter.mkDefault, constructedDefaults])
    (by norm_num [MetabolicMuscleParameter.mkDefault, constructedDefaults])
    (by norm_num [MetabolicMuscleParameter.mkDefault, constructedDefaults])
    (by norm_num [MetabolicMuscleParameter.mkDefault, constructedDefaults])
    (by norm_num [MetabolicMuscleParameter.mkDefault, constructedDefaults])
    (by norm_num [MetabolicMuscleParameter.mkDefault, constructedDefaults])
    (by norm_num)

/-- Claim C9: every constructor leaves the cached muscle mass at the NaN
sentinel (all route through `setNull`), and after `setMuscleMass m` the
accessor `getMuscleMass` returns exactly the last value set. -/
theorem muscle_mass_cache (r mass aS aF mS mF : ℝ)
    (p : MetabolicMuscleParameter) (m : ℝ) :
    MetabolicMuscleParameter.mkDefault.getMuscleMass = none ∧
    (MetabolicMuscleParameter.mkRatio r).getMuscleMass = none ∧
    (MetabolicMuscleParameter.mkRatioMass r mass).getMuscleMass = none ∧
    (MetabolicMuscleParameter.mkConstants r aS aF mS mF).getMuscleMass =
      none ∧
    (p.setMuscleMass m).getMuscleMass = some m :=
  ⟨rfl, rfl, rfl, rfl, rfl⟩

/-- Claim C10: the (ratio, mass) constructor sets
`use_provided_muscle_mass = true` and stores the given mass; every other
constructor keeps `use_provided_muscle_mass = false` and the NaN sentinel;
and every constructor keeps the documented defaults for properties it was
not passed. -/
theorem constructor_defaults (r mass aS aF mS mF : ℝ) :
    ((MetabolicMuscleParameter.mkRatioMass r mass).use_provided_muscle_mass
        = true ∧
     (MetabolicMuscleParameter.mkRatioMass r mass).provided_muscle_mass =
        some mass ∧
     (MetabolicMuscleParameter.mkRatioMass r mass).ratio_slow_twitch_fibers
        = r ∧
     (MetabolicMuscleParameter.mkRatioMass r mass).specific_tension =
        0.25e6 ∧
     (MetabolicMuscleParameter.mkRatioMass r mass).density = 1059.7 ∧
     (MetabolicMuscleParameter.mkRatioMass r
        mass).activation_constant_slow_twitch = 40.0 ∧
     (MetabolicMuscleParameter.mkRatioMass r
        mass).activation_constant_fast_twitch = 133.0 ∧
     (MetabolicMuscleParameter.mkRatioMass r
        mass).maintenance_constant_slow_twitch = 74.0 ∧
     (MetabolicMuscleParameter.mkRatioMass r
        mass).maintenance_constant_fast_twitch = 111.0) ∧
    (MetabolicMuscleParameter.mkDefault = constructedDefaults ∧
     MetabolicMuscleParameter.mkDefault.use_provided_muscle_mass = false ∧
     MetabolicMuscleParameter.mkDefault.provided_muscle_mass = none ∧
     MetabolicMuscleParameter.mkDefault.ratio_slow_twitch_fibers = 0.5) ∧
    ((MetabolicMuscleParameter.mkRatio r).use_provided_muscle_mass =
        false ∧
     (MetabolicMuscleParameter.mkRatio r).provided_muscle_mass = none ∧
     (MetabolicMuscleParameter.mkRatio r).ratio_slow_twitch_fibers = r ∧
     (MetabolicMuscleParameter.mkRatio r).specific_tension = 0.25e6 ∧
     (MetabolicMuscleParameter.mkRatio r).density = 1059.7 ∧
     (MetabolicMuscleParameter.mkRatio r).activation_constant_slow_twitch =
        40.0 ∧
     (MetabolicMuscleParameter.mkRatio r).activation_constant_fast_twitch =
        133.0 ∧
     (MetabolicMuscleParameter.mkRatio r).maintenance_constant_slow_twitch
        = 74.0 ∧
     (MetabolicMuscleParameter.mkRatio r).maintenance_constant_fast_twitch
        = 111.0) ∧
    ((MetabolicMuscleParameter.mkConstants r aS aF mS
        mF).use_provided_muscle_mass = false ∧
     (MetabolicMuscleParameter.mkConstants r aS aF mS
        mF).provided_muscle_mass = none ∧
     (MetabolicMuscleParameter.mkConstants r aS aF mS
        mF).ratio_slow_twitch_fibers = r ∧
     (MetabolicMuscleParameter.mkConstants r aS aF mS
        mF).specific_tension = 0.25e6 ∧
     (MetabolicMuscleParameter.mkConstants r aS aF mS mF).density =
        1059.7 ∧
     (MetabolicMuscleParameter.mkConstants r aS aF mS
        mF).activation_constant_slow_twitch = aS ∧
     (MetabolicMuscleParameter.mkConstants r aS aF mS
        mF).activation_constant_fast_twitch = aF ∧
     (MetabolicMuscleParameter.mkConstants r aS aF mS
        mF).maintenance_constant_slow_twitch = mS ∧
     (MetabolicMuscleParameter.mkConstants r aS aF mS
        mF).maintenance_constant_fast_twitch = mF) :=
  ⟨⟨rfl, rfl, rfl, rfl, rfl, rfl, rfl, rfl, rfl⟩,
   ⟨rfl, rfl, rfl, rfl⟩,
   ⟨rfl, rfl, rfl, rfl, rfl, rfl, rfl, rfl, rfl⟩,
   ⟨rfl, rfl, rfl, rfl, rfl, rfl, rfl, rfl, rfl⟩⟩

end

end Bhargava2004
